import Mathlib

/-!
Shallow embedding of the preview/confirmation state machine of the
notion-hubspot-connector front end (source file `src/unnamed/part_000`,
the newer flow with deals, master toggles and future tasks).

JavaScript values are modelled as follows: a variable that holds either
`null` or a string becomes `Option String` (`none` = `null`); JS truthiness
of such a variable (`if (x)`) becomes `jsTruthy`; `x || d` becomes
`jsOrStr` / `jsOrNull`.  Calendar dates are abstracted to a day index
`today : Nat`; the ISO date string produced by `toISOString().split('T')[0]`
is modelled by the injective rendering `dateStr`.
-/

namespace NHConnector

/-- JS truthiness of a null-or-string variable: `null` and `""` are falsy. -/
def jsTruthy : Option String → Bool
  | none => false
  | some s => !(s == "")

/-- JS `x || d` for a null-or-string `x`, producing a string. -/
def jsOrStr : Option String → String → String
  | none, d => d
  | some s, d => if s == "" then d else s

/-- JS `x || null` for a null-or-string `x`: collapses `""` to `null`. -/
def jsOrNull : Option String → Option String
  | none => none
  | some s => if s == "" then none else some s

/-- JS string interpolation of a null-or-string value (`null` renders as "null"). -/
def jsInterp : Option String → String
  | none => "null"
  | some s => s

/-- JS `s || d` where `s` is a plain string. -/
def jsStrOr (s d : String) : String := if s == "" then d else s

/-- ASCII whitespace, for the model of JS `trim()`. -/
def isSpaceChar (c : Char) : Bool := c == ' ' || c == '\t' || c == '\n' || c == '\r'

/-- Model of JS `String.prototype.trim` (ASCII whitespace), written by
structural recursion over the character list so that it evaluates inside the
kernel. -/
def jsTrim (s : String) : String :=
  ⟨((s.data.dropWhile isSpaceChar).reverse.dropWhile isSpaceChar).reverse⟩

/-- Model of `parseInt(v) || d`: a non-numeric string gives NaN (falsy) and 0 is
falsy, so both fall back to `d`. -/
def jsParseIntOr (v : String) (d : Nat) : Nat :=
  match v.toNat? with
  | some n => if n = 0 then d else n
  | none => d

/-- Model of `getDateDaysFromNow` / the tomorrow computation in `displayTodos`:
the ISO date string for the day `today + days`, rendered abstractly. -/
def dateStr (day : Nat) : String := "date-" ++ toString day

/-- `Contact` as returned by contact search (all fields strings, missing = ""). -/
structure Contact where
  id : String
  firstname : String
  lastname : String
  email : String
  company : String
deriving DecidableEq, Repr

/-- `Deal` data attached to deal dropdown options. -/
structure Deal where
  id : String
  name : String
  amount : String
  stage : String
  next_step : String
  next_step_date : String
deriving DecidableEq, Repr

/-- A parsed to-do item of the preview (`{task_name, due_date, next_step}`). -/
structure Todo where
  task_name : String
  due_date : String
  next_step : String
deriving DecidableEq, Repr

/-- The preview's `preferences` map (`Map<FieldName, string[]|string>`): the
`"Preference Notes"` key holds the free-text string (absent key = ""), every
other key holds a multi-value array.  The two shapes are split into the two
fields below so that the JS `Object.keys(...).some(...)` scan becomes a scan
over `multi` plus the check on `notes`. -/
structure Preferences where
  multi : List (String × List String)
  notes : String
deriving DecidableEq, Repr

/-- `parsed_contact` of the preview. -/
structure ParsedContact where
  person_name : String
  email : String
  company_name : String
deriving DecidableEq, Repr

/-- `parsed_deal` of the preview. -/
structure ParsedDeal where
  deal_name : String
  suggested_stage : String
  suggested_next_step : String
  search_keywords : String
deriving DecidableEq, Repr

/-- `notion_investor` of the preview. -/
structure NotionInvestor where
  found : Bool
  page_id : String
  name : String
deriving DecidableEq, Repr

/-- The preview's `deal_status` field. -/
inductive DealStatus where
  | found
  | notFound
  | noDeal
deriving DecidableEq, Repr

/-- `ParsedNotesPreview`: the server response stored in `processedData`. -/
structure Preview where
  raw_notes : String
  summary : List String
  parsed_contact : ParsedContact
  parsed_deal : Option ParsedDeal
  hubspot_contacts : List Contact
  hubspot_deals : List Deal
  deal_status : DealStatus
  preferences : Preferences
  notion_investor : Option NotionInvestor
  todos : List Todo
deriving DecidableEq, Repr

/-- One rendered to-do table row: its source index, its checkbox state and the
value of its due-date `<select>` (`displayTodos` creates checkbox and selector
together, so every row carries both). -/
structure TodoRow where
  index : Nat
  checked : Bool
  dateValue : String
deriving DecidableEq, Repr

/-- `submissionPageActions`: the master action selections stored at parse time. -/
structure SubmissionActions where
  enable_hubspot_note : Bool
  enable_investor_prefs : Bool
  enable_todos : Bool
deriving DecidableEq, Repr

/-- The mutable client state: the module-level selection variables of
`part_000` plus the DOM widgets that the confirm/render code reads
(checked radio, checkboxes, deal input fields, to-do rows, investor section
visibility). -/
structure AppState where
  processedData : Option Preview
  selectedContactId : Option String
  selectedContactName : Option String
  skipHubspot : Bool
  skipInvestorPrefs : Bool
  investorPageId : Option String
  selectedInvestorId : Option String
  selectedInvestorName : Option String
  selectedDealId : Option String
  selectedDealData : Option Deal
  hubspotAction : String
  hubspotRadio : Option String
  enableHubspotNote : Bool
  enableInvestorPrefs : Bool
  enableTodos : Bool
  submissionActions : SubmissionActions
  updateInvestorPrefsChecked : Bool
  createTodosChecked : Bool
  createFutureTaskChecked : Bool
  taskTitleVal : String
  taskDueDaysVal : String
  dealNameVal : String
  dealStageVal : String
  dealNextStepVal : String
  dealNextStepDateVal : String
  todoRows : List TodoRow
  investorFoundVisible : Bool
  multipleInvestorsVisible : Bool
  investorNotFoundVisible : Bool
deriving DecidableEq, Repr

/-- Derived contact mode of the Action Selection Model: `skipHubspot` records an
explicit skip, a stored contact id means a contact is selected. -/
inductive ContactMode where
  | noneMode
  | selected
  | skipMode
deriving DecidableEq, Repr

/-- The contact mode an `AppState` denotes. -/
def contactMode (s : AppState) : ContactMode :=
  if s.skipHubspot then .skipMode
  else if s.selectedContactId.isSome then .selected
  else .noneMode

/-- Derived investor mode: skip flag wins, `'CREATE_NEW'` marks a pending
create, any other stored page id is a match. -/
inductive InvestorMode where
  | noneMode
  | matched
  | createNew
  | skipMode
deriving DecidableEq, Repr

/-- The investor mode an `AppState` denotes. -/
def investorMode (s : AppState) : InvestorMode :=
  if s.skipInvestorPrefs then .skipMode
  else
    match s.investorPageId with
    | some v => if v == "CREATE_NEW" then .createNew else .matched
    | none => .noneMode

/-- `updateTaskTitle` (lines 232-239): when a contact name is set and the task
title input is empty, pre-fill it with "Check in with NAME". -/
def updateTaskTitle (s : AppState) : AppState :=
  if jsTruthy s.selectedContactName then
    if s.taskTitleVal == "" then
      { s with taskTitleVal := "Check in with " ++ jsInterp s.selectedContactName }
    else s
  else s

/-- `showHubSpotActionsCard` (lines 1264-1288): no-op (card hidden) unless both
contact id and name are truthy; otherwise resets the action to `log_only`
(variable and checked radio), clears the deal selection, updates the task
title and clears the skip flag. -/
def showHubSpotActionsCard (s : AppState) : AppState :=
  if !(jsTruthy s.selectedContactId) || !(jsTruthy s.selectedContactName) then s
  else
    let s1 := { s with hubspotAction := "log_only", hubspotRadio := some "log_only",
                       selectedDealId := none }
    let s2 := updateTaskTitle s1
    { s2 with skipHubspot := false }

/-- The full-name rendering of `displayContactSection` line 383:
````${firstname || ''} ${lastname || ''}`.trim() || 'N/A'``. -/
def fullNameOf (c : Contact) : String :=
  jsStrOr (jsTrim (c.firstname ++ " " ++ c.lastname)) "N/A"

/-- `displayContactSection` (lines 372-417): exactly one match auto-selects that
contact and shows the HubSpot actions card; zero or several matches only touch
untracked DOM (create-new form / selection dropdown). -/
def displayContactSection (preview : Preview) (s : AppState) : AppState :=
  match preview.hubspot_contacts with
  | [c] =>
      showHubSpotActionsCard
        { s with selectedContactId := some c.id,
                 selectedContactName := some (fullNameOf c) }
  | _ => s

/-- The argument record of `showDealCreationMode`. -/
structure DealSuggestion where
  deal_name : String
  suggested_stage : String
  suggested_next_step : String
deriving DecidableEq, Repr

/-- `showDealCreationMode` (lines 1416-1437): pre-populates the deal input
fields; the next-step date defaults to tomorrow only when still empty. -/
def showDealCreationMode (sug : DealSuggestion) (today : Nat) (s : AppState) : AppState :=
  let s1 := { s with dealNameVal := sug.deal_name,
                     dealStageVal := jsStrOr sug.suggested_stage "appointmentscheduled",
                     dealNextStepVal := sug.suggested_next_step }
  if s1.dealNextStepDateVal == "" then
    { s1 with dealNextStepDateVal := dateStr (today + 1) }
  else s1

/-- `displayParsedDeals` (lines 448-492): found deals only populate untracked
dropdown DOM; `not_found` with a truthy deal name opens deal-creation mode with
the parse's suggestions (stage falling back to `appointmentscheduled`). -/
def displayParsedDeals (preview : Preview) (today : Nat) (s : AppState) : AppState :=
  if preview.deal_status == .found && !preview.hubspot_deals.isEmpty then s
  else if preview.deal_status == .notFound then
    let pd := preview.parsed_deal.getD { deal_name := "", suggested_stage := "",
                                         suggested_next_step := "", search_keywords := "" }
    let dealName := jsStrOr pd.deal_name pd.search_keywords
    if dealName == "" then s
    else
      showDealCreationMode
        { deal_name := dealName,
          suggested_stage := jsStrOr pd.suggested_stage "appointmentscheduled",
          suggested_next_step := pd.suggested_next_step } today s
  else s

/-- The `hasPreferences` scan of `displayPreferences` (lines 502-508): the
`"Preference Notes"` entry counts iff truthy with non-empty trim, every other
entry iff it is a non-empty array. -/
def hasPreferences (p : Preferences) : Bool :=
  !(jsTrim p.notes == "") || p.multi.any (fun kv => !kv.2.isEmpty)

/-- `displayPreferences` (lines 497-560): hides all investor sections, then with
no meaningful preferences unchecks the investor checkbox and records a skip;
otherwise shows the matched investor (storing its page id) or the
search/create options. -/
def displayPreferences (preview : Preview) (s : AppState) : AppState :=
  let s0 := { s with investorFoundVisible := false, multipleInvestorsVisible := false,
                     investorNotFoundVisible := false }
  if !(hasPreferences preview.preferences) then
    { s0 with updateInvestorPrefsChecked := false, skipInvestorPrefs := true }
  else
    match preview.notion_investor with
    | some ni =>
        if ni.found then
          { s0 with investorPageId := some ni.page_id, investorFoundVisible := true }
        else { s0 with investorNotFoundVisible := true }
    | none => { s0 with investorNotFoundVisible := true }

/-- The to-do rows built by `displayTodos` (lines 565-638): one row per parsed
todo, checkbox checked, due-date selector on the "tomorrow" option. -/
def displayTodosRows (todos : List Todo) (today : Nat) : List TodoRow :=
  todos.enum.map (fun p => { index := p.1, checked := true, dateValue := dateStr (today + 1) })

/-- `displayTodos` as a state update: the table is cleared and rebuilt. -/
def displayTodos (todos : List Todo) (today : Nat) (s : AppState) : AppState :=
  { s with todoRows := displayTodosRows todos today }

/-- `displayPreview` (lines 309-367): resets all selection state and the radio,
re-seeds the Notion checkboxes from the submission-page actions, then renders
the contact, deal, preferences and to-do sections. -/
def displayPreview (preview : Preview) (today : Nat) (s : AppState) : AppState :=
  let s1 := { s with selectedContactId := none, selectedContactName := none,
                     skipHubspot := false, skipInvestorPrefs := false,
                     investorPageId := none, selectedDealId := none,
                     hubspotAction := "log_only", hubspotRadio := some "log_only",
                     updateInvestorPrefsChecked := s.submissionActions.enable_investor_prefs,
                     createTodosChecked := s.submissionActions.enable_todos }
  let s2 := displayContactSection preview s1
  let s3 := displayParsedDeals preview today s2
  let s4 := displayPreferences preview s3
  displayTodos preview.todos today s4

/-- `handleHubSpotActionChange` (lines 1293-1322): stores the radio's value in
`hubspotAction` unconditionally; `log_with_deal` keeps the current deal
selection, the other actions clear it; only `skip` sets the skip flag. -/
def handleHubSpotActionChange (v : String) (s : AppState) : AppState :=
  if v == "log_with_deal" then
    { s with hubspotAction := v, skipHubspot := false }
  else if v == "skip" then
    { s with hubspotAction := v, selectedDealId := none, skipHubspot := true }
  else
    { s with hubspotAction := v, selectedDealId := none, skipHubspot := false }

/-- The user-level `setHubspotAction` operation: clicking radio `v` checks it in
the DOM and fires `handleHubSpotActionChange`. -/
def setHubspotAction (v : String) (s : AppState) : AppState :=
  handleHubSpotActionChange v { s with hubspotRadio := some v }

/-- `handleInvestorSelection` (lines 1152-1163): stores the dropdown value (the
placeholder's value is the empty string) and derives the skip flag from its
truthiness. -/
def handleInvestorSelection (v : String) (s : AppState) : AppState :=
  { s with investorPageId := some v,
           skipInvestorPrefs := if v == "" then true else false }

/-- `handleSkipInvestorPrefs` (lines 1206-1222). -/
def handleSkipInvestorPrefs (s : AppState) : AppState :=
  { s with skipInvestorPrefs := true, investorPageId := none }

/-- `handleSkipHubspot` (lines 935-951). -/
def handleSkipHubspot (s : AppState) : AppState :=
  { s with skipHubspot := true, selectedContactId := none }

/-- `handleCancel` (lines 2114-2123): clears the preview, the contact id/name,
both skip flags and the investor page id, then returns to the input screen.
No other selection variable is written. -/
def handleCancel (s : AppState) : AppState :=
  { s with processedData := none, selectedContactId := none, selectedContactName := none,
           skipHubspot := false, skipInvestorPrefs := false, investorPageId := none }

/-- `handleNewNotes` (lines 2128-2164): the fuller reset used by "process new
notes" (still leaves `selectedDealData` and `hubspotAction` alone). -/
def handleNewNotes (s : AppState) : AppState :=
  { s with processedData := none, selectedContactId := none, selectedContactName := none,
           selectedDealId := none, selectedInvestorId := none, selectedInvestorName := none,
           investorPageId := none, skipHubspot := false, skipInvestorPrefs := false,
           updateInvestorPrefsChecked := true, createTodosChecked := true }

/-- `getSelectedTodos` (lines 1744-1766): walk the rendered rows in order; a
checked row contributes the preview todo at its index — if that index exists —
with `due_date` replaced by the row's selector value (falling back to the
parsed date only if the selector value were empty). -/
def getSelectedTodos (rows : List TodoRow) (todos : List Todo) : List Todo :=
  match rows with
  | [] => []
  | r :: rs =>
      if r.checked then
        match todos[r.index]? with
        | some t =>
            { t with due_date := if r.dateValue == "" then t.due_date else r.dateValue }
              :: getSelectedTodos rs todos
        | none => getSelectedTodos rs todos
      else getSelectedTodos rs todos

/-- `deal_updates` of the confirm payload (lines 1931-1936): populated only when
a deal id is truthy, and each field only when its input is non-empty. -/
structure DealUpdates where
  dealstage : Option String
  hs_next_step : Option String
  next_steps_date : Option String
deriving DecidableEq, Repr

/-- `future_task` of the confirm payload (lines 1939-1946). -/
structure FutureTask where
  create_task : Bool
  task_title : String
  due_days : Nat
deriving DecidableEq, Repr

/-- The `hubspot` half of the confirm payload (lines 1949-1958). -/
structure HubspotPayload where
  action : String
  contact_id : Option String
  contact_name : String
  deal_id : Option String
  deal_updates : DealUpdates
  summary : List String
  raw_notes : String
  future_task : FutureTask
deriving DecidableEq, Repr

/-- The `notion` half of the confirm payload (lines 1959-1965). -/
structure NotionPayload where
  update_investor_prefs : Bool
  create_todos : Bool
  company_name : String
  preferences : Preferences
  todos : List Todo
deriving DecidableEq, Repr

/-- The confirm-and-execute request payload (lines 1948-1967). -/
structure Payload where
  hubspot : HubspotPayload
  notion : NotionPayload
  contact_name : String
deriving DecidableEq, Repr

/-- The four distinct pre-flight validation failures of
`handleConfirmAndExecute`, one per user-facing message:
`noActionSelected` = "Please select at least one action to perform...",
`noContactOrDeal` = "Please select a HubSpot contact or deal, or choose Skip
HubSpot option.", `noDealSelected` = "Please select a deal from the
dropdown...", `noData` = "No data to process.". -/
inductive ValidationError where
  | noActionSelected
  | noContactOrDeal
  | noDealSelected
  | noData
deriving DecidableEq, Repr

/-- Outcome of a confirm-and-execute attempt: blocked by pre-flight validation
(an error message is shown, nothing is dispatched, no tracked state is
written), or one request dispatched with the built payload. -/
inductive ConfirmOutcome where
  | blocked (e : ValidationError)
  | dispatch (p : Payload)
deriving DecidableEq, Repr

/-- Whether an outcome dispatched a request. -/
def ConfirmOutcome.isDispatch : ConfirmOutcome → Bool
  | .dispatch _ => true
  | .blocked _ => false

/-- Line 1881 + 1886-1888: the HubSpot action used by confirm — the checked
radio's value (`'skip'` when none is checked), overridden to `'skip'` when the
master HubSpot checkbox is off. -/
def effectiveHubspotAction (s : AppState) : String :=
  if s.enableHubspotNote then jsOrStr s.hubspotRadio "skip" else "skip"

/-- Line 1882: investor preferences execute only if the master checkbox and the
detail checkbox are both on. -/
def shouldUpdateInvestorPrefs (s : AppState) : Bool :=
  s.enableInvestorPrefs && s.updateInvestorPrefsChecked

/-- Line 1883: todos execute only if the master checkbox and the detail
checkbox are both on. -/
def shouldCreateTodos (s : AppState) : Bool :=
  s.enableTodos && s.createTodosChecked

/-- Lines 1931-1936. -/
def buildDealUpdates (s : AppState) : DealUpdates :=
  if jsTruthy s.selectedDealId then
    { dealstage := if s.dealStageVal == "" then none else some s.dealStageVal,
      hs_next_step := if s.dealNextStepVal == "" then none else some s.dealNextStepVal,
      next_steps_date := if s.dealNextStepDateVal == "" then none else some s.dealNextStepDateVal }
  else { dealstage := none, hs_next_step := none, next_steps_date := none }

/-- Lines 1939-1946 (the `create_task:false` object carries no other fields;
they are rendered here as "" and 0). -/
def buildFutureTask (s : AppState) : FutureTask :=
  if s.createFutureTaskChecked then
    { create_task := true,
      task_title := jsStrOr s.taskTitleVal ("Check in with " ++ jsInterp s.selectedContactName),
      due_days := jsParseIntOr s.taskDueDaysVal 90 }
  else { create_task := false, task_title := "", due_days := 0 }

/-- Lines 1922-1967: the payload built strictly from the current state once
validation has passed. -/
def buildPayload (s : AppState) (preview : Preview) : Payload :=
  let hubspotAction := effectiveHubspotAction s
  let su := shouldUpdateInvestorPrefs s
  let sc := shouldCreateTodos s
  let todosToSend := if sc then getSelectedTodos s.todoRows preview.todos else []
  { hubspot :=
      { action := hubspotAction,
        contact_id := jsOrNull s.selectedContactId,
        contact_name := jsOrStr s.selectedContactName "",
        deal_id := jsOrNull s.selectedDealId,
        deal_updates := buildDealUpdates s,
        summary := preview.summary,
        raw_notes := preview.raw_notes,
        future_task := buildFutureTask s },
    notion :=
      { update_investor_prefs := su && !s.skipInvestorPrefs,
        create_todos := sc,
        company_name := preview.parsed_contact.company_name,
        preferences := preview.preferences,
        todos := todosToSend },
    contact_name := jsOrStr s.selectedContactName "" }

/-- `handleConfirmAndExecute` (lines 1874-1914): the four pre-flight checks in
source order, then the dispatch with the built payload.  No tracked state
variable is assigned on any path before the request is sent, so a blocked
attempt leaves the model exactly as it was. -/
def handleConfirmAndExecute (s : AppState) : ConfirmOutcome :=
  let hubspotAction := effectiveHubspotAction s
  let su := shouldUpdateInvestorPrefs s
  let sc := shouldCreateTodos s
  if hubspotAction == "skip" && !su && !sc then .blocked .noActionSelected
  else if !(hubspotAction == "skip") && !(jsTruthy s.selectedContactId)
          && !(jsTruthy s.selectedDealId) then .blocked .noContactOrDeal
  else if hubspotAction == "log_with_deal" && !(jsTruthy s.selectedDealId) then
    .blocked .noDealSelected
  else
    match s.processedData with
    | none => .blocked .noData
    | some preview => .dispatch (buildPayload s preview)

/-- Contact entry of the call-preparation recent-contacts cache; the upsert call
site (lines 2538-2543) normalises every field to a string ("" when absent) and
falls back to the email when the contact has no id. -/
structure PrepContact where
  id : String
  name : String
  email : String
  company : String
deriving DecidableEq, Repr

/-- The duplicate test of `savePrepRecentContact` line 2916: two entries collide
when they share an email or share an id. -/
def contactMatches (t item : PrepContact) : Bool :=
  t.email == item.email || t.id == item.id

/-- The `filter`/`findIndex` dedup of lines 2914-2918: keep an element iff its
index is the first index of the original list whose element matches it. -/
def dedupContacts (l : List PrepContact) : List PrepContact :=
  (l.enum.filter (fun p => l.findIdx (fun t => contactMatches t p.2) == p.1)).map Prod.snd

/-- `savePrepRecentContact` (lines 2909-2928): unshift the new contact, remove
duplicates, keep the first 6. -/
def savePrepRecentContact (contact : PrepContact) (l : List PrepContact) : List PrepContact :=
  (dedupContacts (contact :: l)).take 6

/-- Modelled from the claim wording for C8: the deduplication key "email,
falling back to id" — the call site stores "" for a missing email, so the
fallback applies to the empty email. -/
def prepDedupKey (c : PrepContact) : String :=
  if c.email == "" then c.id else c.email

/-- The four due-date option values rendered into every to-do row's selector
(lines 605-610): tomorrow, 7, 30 and 90 days from today. -/
def dateOptionValues (today : Nat) : List String :=
  [dateStr (today + 1), dateStr (today + 7), dateStr (today + 30), dateStr (today + 90)]

/-- A small concrete preview used by witnesses: two meaningful preference
values, no contacts, no deals, no todos. -/
def basePreview : Preview :=
  { raw_notes := "call with p", summary := ["spoke"],
    parsed_contact := { person_name := "Pat Quinn", email := "pat@q.com", company_name := "QCap" },
    parsed_deal := none, hubspot_contacts := [], hubspot_deals := [],
    deal_status := .noDeal,
    preferences := { multi := [("Sectors", ["tech"])], notes := "" },
    notion_investor := none, todos := [] }

/-- A neutral concrete state used by witnesses: fresh session, everything at
its default, no contact resolved. -/
def baseState : AppState :=
  { processedData := none, selectedContactId := none, selectedContactName := none,
    skipHubspot := false, skipInvestorPrefs := false, investorPageId := none,
    selectedInvestorId := none, selectedInvestorName := none, selectedDealId := none,
    selectedDealData := none, hubspotAction := "log_only", hubspotRadio := some "log_only",
    enableHubspotNote := true, enableInvestorPrefs := true, enableTodos := true,
    submissionActions := { enable_hubspot_note := true, enable_investor_prefs := true,
                           enable_todos := true },
    updateInvestorPrefsChecked := true, createTodosChecked := true,
    createFutureTaskChecked := false, taskTitleVal := "", taskDueDaysVal := "90",
    dealNameVal := "", dealStageVal := "", dealNextStepVal := "", dealNextStepDateVal := "",
    todoRows := [], investorFoundVisible := false, multipleInvestorsVisible := false,
    investorNotFoundVisible := false }

/-- State for the C1 counterexample: preview loaded, action `log_only`, no
contact resolved and no skip recorded, but a deal id is present (reachable:
select contact, pick a deal, then re-search contacts and get several matches,
which nulls the contact id but not the deal id — lines 903-906). -/
def dealOnlyState : AppState :=
  { baseState with processedData := some basePreview, selectedDealId := some "deal-77" }

/-- State for the C1 amended-claim witness: preview loaded, action `log_only`,
no contact and no deal. -/
def noContactNoDealState : AppState :=
  { baseState with processedData := some basePreview }

/-- State for the C6 witness: action radio on `skip`, both Notion detail
checkboxes off, preview loaded. -/
def allSkippedState : AppState :=
  { baseState with processedData := some basePreview, hubspotRadio := some "skip",
                   updateInvestorPrefsChecked := false, createTodosChecked := false }

/-- State for the C7 witness: HubSpot and todos master toggles off, investor
preferences on, preview loaded. -/
def mastersOffState : AppState :=
  { baseState with processedData := some basePreview, enableHubspotNote := false,
                   enableTodos := false }

/-- State for the C3 counterexample: a deal, an investor and the
`log_with_deal` action are selected when cancel is pressed. -/
def cancelRichState : AppState :=
  { baseState with processedData := some basePreview,
                   selectedContactId := some "c-1", selectedContactName := some "Pat Quinn",
                   hubspotAction := "log_with_deal", hubspotRadio := some "log_with_deal",
                   selectedDealId := some "deal-1",
                   selectedDealData := some { id := "deal-1", name := "D", amount := "5",
                                              stage := "contractsent", next_step := "call",
                                              next_step_date := "date-9" },
                   selectedInvestorId := some "inv-9", selectedInvestorName := some "QCap" }

/-- Preview for the C4 witness: exactly one HubSpot contact match. -/
def singleContactPreview : Preview :=
  { basePreview with
      hubspot_contacts := [{ id := "hs-42", firstname := "Pat", lastname := "Quinn",
                             email := "pat@q.com", company := "QCap" }] }

/-- Rows for the C10 witness: one checked row on the 7-day offset, one checked
row with a dangling index, one unchecked row. -/
def c10Rows : List TodoRow :=
  [{ index := 0, checked := true, dateValue := dateStr 7 },
   { index := 5, checked := true, dateValue := dateStr 1 },
   { index := 1, checked := false, dateValue := dateStr 1 }]

/-- Parsed todos for the C10 witness. -/
def c10Todos : List Todo :=
  [{ task_name := "t1", due_date := "parsed-1", next_step := "n1" },
   { task_name := "t2", due_date := "parsed-2", next_step := "n2" }]

/-- Preview for the C5 witness: no meaningful preference values (empty
multi-value field, empty notes). -/
def emptyPrefsPreview : Preview :=
  { basePreview with preferences := { multi := [("Sectors", [])], notes := "" },
                     notion_investor := some { found := true, page_id := "pg-1", name := "QCap" } }

/-- First cache entry of the C8 counterexample: a contact whose email is the
string "k". -/
def prepContactA : PrepContact := { id := "x", name := "A", email := "k", company := "" }

/-- Second cache entry of the C8 counterexample: a contact with no email whose
id is the string "k" (the upsert call site stores "" for a missing email and
can store an email as the id, lines 2538-2543). -/
def prepContactB : PrepContact := { id := "k", name := "B", email := "", company := "" }

/-! ## Theorems -/

/-- C3 counterexample: pressing cancel in a state with a selected deal, a
selected investor and the `log_with_deal` action leaves the deal id, the deal
data, the investor id/name and the hubspot action in place — they do not
return to their defaults, so the claim that every selection field is reset on
cancel is false. -/
theorem handleCancel_keeps_deal_selection :
    (handleCancel cancelRichState).selectedDealId = some "deal-1" ∧
    (handleCancel cancelRichState).selectedDealId ≠ none ∧
    (handleCancel cancelRichState).hubspotAction = "log_with_deal" ∧
    (handleCancel cancelRichState).selectedInvestorId = some "inv-9" ∧
    (handleCancel cancelRichState).selectedDealData ≠ none := by
  decide

/-- C3 (amended): explicit cancel resets exactly the preview, the contact
id/name, both skip flags and the investor page id; the selected deal id, deal
data, selected investor id/name, the hubspot action and the checked radio all
survive the cancel (they are only reset when the next preview is rendered or
by the fuller "new notes" reset). -/
theorem handleCancel_resets_only_contact_skip_investorPage (s : AppState) :
    (handleCancel s).processedData = none ∧
    (handleCancel s).selectedContactId = none ∧
    (handleCancel s).selectedContactName = none ∧
    (handleCancel s).skipHubspot = false ∧
    (handleCancel s).skipInvestorPrefs = false ∧
    (handleCancel s).investorPageId = none ∧
    (handleCancel s).selectedDealId = s.selectedDealId ∧
    (handleCancel s).selectedDealData = s.selectedDealData ∧
    (handleCancel s).selectedInvestorId = s.selectedInvestorId ∧
    (handleCancel s).selectedInvestorName = s.selectedInvestorName ∧
    (handleCancel s).hubspotAction = s.hubspotAction ∧
    (handleCancel s).hubspotRadio = s.hubspotRadio := by
  simp [handleCancel]

/-- C9: selecting the empty placeholder option of the multiple-investors
dropdown stores the (falsy) empty value — no investor page remains selected —
and records the skip flag; selecting a non-empty option stores that page id
and clears the skip flag.  The stored JS value for the placeholder is the
empty string, which the program distinguishes from a real id only by
truthiness, so "becomes null" is read as "no truthy page id remains". -/
theorem handleInvestorSelection_placeholder_skip_select (v : String) (s : AppState) :
    (handleInvestorSelection v s).investorPageId = some v ∧
    (handleInvestorSelection v s).skipInvestorPrefs = (v == "") ∧
    jsTruthy (handleInvestorSelection v s).investorPageId = !(v == "") := by
  refine ⟨rfl, ?_, ?_⟩
  · by_cases h : v = "" <;> simp [handleInvestorSelection, h]
  · by_cases h : v = "" <;> simp [handleInvestorSelection, jsTruthy, h]

/-- C2 counterexample: in the fresh state no contact is selected, yet invoking
the HubSpot-action change with `log_with_deal` is not a no-op — the model
changes and its hubspot action becomes `log_with_deal`.  The handler has no
guard; the radios are merely hidden while no contact is selected. -/
theorem setHubspotAction_changes_model_without_contact :
    contactMode baseState ≠ .selected ∧
    setHubspotAction "log_with_deal" baseState ≠ baseState ∧
    (setHubspotAction "log_with_deal" baseState).hubspotAction = "log_with_deal" ∧
    handleHubSpotActionChange "log_with_deal" baseState ≠ baseState ∧
    (handleHubSpotActionChange "log_with_deal" baseState).hubspotAction = "log_with_deal" := by
  decide

/-- C2 (amended): `setHubspotAction("log_with_deal")` is applied
unconditionally: even when no contact is selected it sets the hubspot action
and the checked radio to `log_with_deal`, clears the skip flag and keeps the
previously selected deal id; the only guard is in the UI, which hides the
radio group until a contact is selected. -/
theorem setHubspotAction_unguarded (s : AppState) (_h : contactMode s ≠ .selected) :
    (setHubspotAction "log_with_deal" s).hubspotAction = "log_with_deal" ∧
    (setHubspotAction "log_with_deal" s).hubspotRadio = some "log_with_deal" ∧
    (setHubspotAction "log_with_deal" s).skipHubspot = false ∧
    (setHubspotAction "log_with_deal" s).selectedDealId = s.selectedDealId := by
  simp [setHubspotAction, handleHubSpotActionChange]

/-- Witness for C2 (amended) at the fresh state. -/
theorem setHubspotAction_unguarded_witness :
    (setHubspotAction "log_with_deal" baseState).hubspotAction = "log_with_deal" ∧
    (setHubspotAction "log_with_deal" baseState).hubspotRadio = some "log_with_deal" ∧
    (setHubspotAction "log_with_deal" baseState).skipHubspot = false ∧
    (setHubspotAction "log_with_deal" baseState).selectedDealId = baseState.selectedDealId :=
  setHubspotAction_unguarded baseState (by decide)

/-- C6: whenever the effective HubSpot action at confirm time is `skip` and
both the investor-preferences and the todos action are disabled, pre-flight
validation always fails with the "select at least one action" message — no
request is dispatched, whatever the loaded preview contains; the handler
writes no tracked state on this path. -/
theorem confirm_all_skipped_blocks (s : AppState)
    (h1 : effectiveHubspotAction s = "skip")
    (h2 : shouldUpdateInvestorPrefs s = false)
    (h3 : shouldCreateTodos s = false) :
    handleConfirmAndExecute s = .blocked .noActionSelected ∧
    (handleConfirmAndExecute s).isDispatch = false := by
  have : handleConfirmAndExecute s = .blocked .noActionSelected := by
    simp [handleConfirmAndExecute, h1, h2, h3]
  exact ⟨this, by rw [this]; rfl⟩

/-- Witness for C6: action radio on `skip`, both Notion checkboxes off, a
preview with meaningful content loaded. -/
theorem confirm_all_skipped_blocks_witness :
    handleConfirmAndExecute allSkippedState = .blocked .noActionSelected ∧
    (handleConfirmAndExecute allSkippedState).isDispatch = false :=
  confirm_all_skipped_blocks allSkippedState (by decide) (by decide) (by decide)

/-- C1 counterexample: with the action `log_only`, no contact resolved (no id,
no skip recorded) but a deal id present, pre-flight validation passes and the
request is dispatched — so the claim that validation fails "regardless of
whether a deal id happens to be present" is false on the code (the check at
line 1897 also accepts a truthy `selectedDealId`). -/
theorem confirm_dealOnly_dispatches :
    effectiveHubspotAction dealOnlyState ≠ "skip" ∧
    dealOnlyState.selectedContactId = none ∧
    dealOnlyState.skipHubspot = false ∧
    contactMode dealOnlyState ≠ .selected ∧
    (handleConfirmAndExecute dealOnlyState).isDispatch = true := by
  decide

/-- C1 (amended): when the effective HubSpot action is not `skip`, no contact
is resolved and additionally no deal id is selected, pre-flight validation
fails with the contact-or-deal message and nothing is dispatched. -/
theorem confirm_blocks_without_contact_or_deal (s : AppState)
    (h1 : effectiveHubspotAction s ≠ "skip")
    (h2 : jsTruthy s.selectedContactId = false)
    (h3 : jsTruthy s.selectedDealId = false) :
    handleConfirmAndExecute s = .blocked .noContactOrDeal ∧
    (handleConfirmAndExecute s).isDispatch = false := by
  have hb : (effectiveHubspotAction s == "skip") = false := by
    simpa using h1
  have : handleConfirmAndExecute s = .blocked .noContactOrDeal := by
    simp [handleConfirmAndExecute, hb, h2, h3]
  exact ⟨this, by rw [this]; rfl⟩

/-- Witness for C1 (amended): preview loaded, action `log_only`, neither a
contact nor a deal selected. -/
theorem confirm_blocks_without_contact_or_deal_witness :
    handleConfirmAndExecute noContactNoDealState = .blocked .noContactOrDeal ∧
    (handleConfirmAndExecute noContactNoDealState).isDispatch = false :=
  confirm_blocks_without_contact_or_deal noContactNoDealState (by decide) (by decide) (by decide)

/-- C7: whenever confirm-and-execute actually dispatches a payload, a disabled
master toggle has forced the corresponding part of the payload off: HubSpot
master off gives action `skip`, investor-prefs master off gives
`update_investor_prefs = false`, todos master off gives `create_todos = false`
and an empty todos list — whatever the finer-grained selections say. -/
theorem confirm_master_toggles_force_off (s : AppState) (p : Payload)
    (h : handleConfirmAndExecute s = .dispatch p) :
    (s.enableHubspotNote = false → p.hubspot.action = "skip") ∧
    (s.enableInvestorPrefs = false → p.notion.update_investor_prefs = false) ∧
    (s.enableTodos = false → p.notion.create_todos = false ∧ p.notion.todos = []) := by
  simp only [handleConfirmAndExecute] at h
  split at h
  · exact absurd h (by simp)
  · split at h
    · exact absurd h (by simp)
    · split at h
      · exact absurd h (by simp)
      · split at h
        · exact absurd h (by simp)
        · rename_i preview heq
          have hp : p = buildPayload s preview := by
            injection h with h1
            exact h1.symm
          subst hp
          refine ⟨?_, ?_, ?_⟩
          · intro hoff
            simp [buildPayload, effectiveHubspotAction, hoff]
          · intro hoff
            simp [buildPayload, shouldUpdateInvestorPrefs, hoff]
          · intro hoff
            constructor
            · simp [buildPayload, shouldCreateTodos, hoff]
            · simp [buildPayload, shouldCreateTodos, hoff]

/-- Witness for C7: HubSpot and todos masters off, investor preferences on and
enabled, preview loaded — the dispatch happens and the forced-off fields can
be read off the payload. -/
theorem confirm_master_toggles_force_off_witness :
    (mastersOffState.enableHubspotNote = false →
      (buildPayload mastersOffState basePreview).hubspot.action = "skip") ∧
    (mastersOffState.enableInvestorPrefs = false →
      (buildPayload mastersOffState basePreview).notion.update_investor_prefs = false) ∧
    (mastersOffState.enableTodos = false →
      (buildPayload mastersOffState basePreview).notion.create_todos = false ∧
      (buildPayload mastersOffState basePreview).notion.todos = []) :=
  confirm_master_toggles_force_off mastersOffState (buildPayload mastersOffState basePreview)
    (by decide)

/-- `displayParsedDeals` writes only the deal input fields: the contact and
investor slices of the state pass through unchanged. -/
theorem displayParsedDeals_preserves (preview : Preview) (today : Nat) (s : AppState) :
    (displayParsedDeals preview today s).selectedContactId = s.selectedContactId ∧
    (displayParsedDeals preview today s).skipHubspot = s.skipHubspot ∧
    (displayParsedDeals preview today s).skipInvestorPrefs = s.skipInvestorPrefs ∧
    (displayParsedDeals preview today s).investorPageId = s.investorPageId ∧
    (displayParsedDeals preview today s).updateInvestorPrefsChecked = s.updateInvestorPrefsChecked ∧
    (displayParsedDeals preview today s).investorFoundVisible = s.investorFoundVisible ∧
    (displayParsedDeals preview today s).multipleInvestorsVisible = s.multipleInvestorsVisible ∧
    (displayParsedDeals preview today s).investorNotFoundVisible = s.investorNotFoundVisible := by
  simp only [displayParsedDeals, showDealCreationMode]
  repeat' split
  all_goals simp

/-- `displayPreferences` writes only the investor slice: the contact slice
passes through unchanged. -/
theorem displayPreferences_preserves_contact (preview : Preview) (s : AppState) :
    (displayPreferences preview s).selectedContactId = s.selectedContactId ∧
    (displayPreferences preview s).skipHubspot = s.skipHubspot := by
  simp only [displayPreferences]
  repeat' split
  all_goals simp

/-- `displayContactSection` writes only the contact, task-title and deal-id
slices: the investor slice passes through unchanged. -/
theorem displayContactSection_preserves_investor (preview : Preview) (s : AppState) :
    (displayContactSection preview s).skipInvestorPrefs = s.skipInvestorPrefs ∧
    (displayContactSection preview s).investorPageId = s.investorPageId ∧
    (displayContactSection preview s).updateInvestorPrefsChecked = s.updateInvestorPrefsChecked ∧
    (displayContactSection preview s).investorFoundVisible = s.investorFoundVisible ∧
    (displayContactSection preview s).multipleInvestorsVisible = s.multipleInvestorsVisible ∧
    (displayContactSection preview s).investorNotFoundVisible = s.investorNotFoundVisible := by
  simp only [displayContactSection, showHubSpotActionsCard, updateTaskTitle]
  repeat' split
  all_goals simp

/-- On a preview with exactly one contact match, `displayContactSection` stores
that match's id and never re-raises the skip flag that `displayPreview`
cleared. -/
theorem displayContactSection_single (preview : Preview) (s : AppState) (c : Contact)
    (hc : preview.hubspot_contacts = [c]) (hskip : s.skipHubspot = false) :
    (displayContactSection preview s).selectedContactId = some c.id ∧
    (displayContactSection preview s).skipHubspot = false := by
  simp only [displayContactSection, showHubSpotActionsCard, updateTaskTitle, hc]
  repeat' split
  all_goals simp [hskip]

/-- The contact slice after the contact/deal/preferences render chain, for any
base state with the skip flag cleared (as `displayPreview` clears it). -/
theorem renderChain_contact (preview : Preview) (today : Nat) (s0 : AppState) (c : Contact)
    (hc : preview.hubspot_contacts = [c]) (hskip : s0.skipHubspot = false) :
    (displayPreferences preview (displayParsedDeals preview today
      (displayContactSection preview s0))).selectedContactId = some c.id ∧
    (displayPreferences preview (displayParsedDeals preview today
      (displayContactSection preview s0))).skipHubspot = false := by
  have h2 := displayContactSection_single preview s0 c hc hskip
  have h3 := displayParsedDeals_preserves preview today (displayContactSection preview s0)
  have h4 := displayPreferences_preserves_contact preview
      (displayParsedDeals preview today (displayContactSection preview s0))
  exact ⟨by rw [h4.1, h3.1, h2.1], by rw [h4.2, h3.2.1, h2.2]⟩

/-- C4: for every preview whose `hubspot_contacts` list has exactly one
element, after the full render the model holds that contact's id and its
contact mode is `selected` (auto-select invariant). -/
theorem displayPreview_single_contact_autoselect (preview : Preview) (today : Nat)
    (s : AppState) (c : Contact) (h : preview.hubspot_contacts = [c]) :
    (displayPreview preview today s).selectedContactId = some c.id ∧
    contactMode (displayPreview preview today s) = .selected := by
  have hchain := renderChain_contact preview today
      { s with selectedContactId := none, selectedContactName := none,
               skipHubspot := false, skipInvestorPrefs := false,
               investorPageId := none, selectedDealId := none,
               hubspotAction := "log_only", hubspotRadio := some "log_only",
               updateInvestorPrefsChecked := s.submissionActions.enable_investor_prefs,
               createTodosChecked := s.submissionActions.enable_todos } c h rfl
  have hid : (displayPreview preview today s).selectedContactId = some c.id := hchain.1
  have hsk : (displayPreview preview today s).skipHubspot = false := hchain.2
  exact ⟨hid, by simp [contactMode, hid, hsk]⟩

/-- Witness for C4: a preview with a single contact match of id `hs-42`,
rendered over the fresh state. -/
theorem displayPreview_single_contact_autoselect_witness :
    (displayPreview singleContactPreview 3 baseState).selectedContactId = some "hs-42" ∧
    contactMode (displayPreview singleContactPreview 3 baseState) = .selected :=
  displayPreview_single_contact_autoselect singleContactPreview 3 baseState
    { id := "hs-42", firstname := "Pat", lastname := "Quinn",
      email := "pat@q.com", company := "QCap" } (by decide)

/-- On a preview with no meaningful preferences, `displayPreferences` records
the skip, unchecks the detail checkbox, hides every investor section and
leaves the (already cleared) page id untouched. -/
theorem displayPreferences_no_prefs (preview : Preview) (s : AppState)
    (h : hasPreferences preview.preferences = false) :
    (displayPreferences preview s).skipInvestorPrefs = true ∧
    (displayPreferences preview s).updateInvestorPrefsChecked = false ∧
    (displayPreferences preview s).investorPageId = s.investorPageId ∧
    (displayPreferences preview s).investorFoundVisible = false ∧
    (displayPreferences preview s).multipleInvestorsVisible = false ∧
    (displayPreferences preview s).investorNotFoundVisible = false := by
  unfold displayPreferences
  simp [h]

/-- The investor slice after the contact/deal/preferences render chain, for an
arbitrary base state, when the preview has no meaningful preferences. -/
theorem renderChain_investor (preview : Preview) (today : Nat) (s0 : AppState)
    (h : hasPreferences preview.preferences = false) :
    (displayPreferences preview (displayParsedDeals preview today
      (displayContactSection preview s0))).skipInvestorPrefs = true ∧
    (displayPreferences preview (displayParsedDeals preview today
      (displayContactSection preview s0))).updateInvestorPrefsChecked = false ∧
    (displayPreferences preview (displayParsedDeals preview today
      (displayContactSection preview s0))).investorPageId = s0.investorPageId ∧
    (displayPreferences preview (displayParsedDeals preview today
      (displayContactSection preview s0))).investorFoundVisible = false ∧
    (displayPreferences preview (displayParsedDeals preview today
      (displayContactSection preview s0))).multipleInvestorsVisible = false ∧
    (displayPreferences preview (displayParsedDeals preview today
      (displayContactSection preview s0))).investorNotFoundVisible = false := by
  have h2 := displayContactSection_preserves_investor preview s0
  have h3 := displayParsedDeals_preserves preview today (displayContactSection preview s0)
  have h4 := displayPreferences_no_prefs preview
      (displayParsedDeals preview today (displayContactSection preview s0)) h
  exact ⟨h4.1, h4.2.1, by rw [h4.2.2.1, h3.2.2.2.1, h2.2.1], h4.2.2.2.1,
    h4.2.2.2.2.1, h4.2.2.2.2.2⟩

/-- C5: for every preview whose preference set is not meaningful (no non-empty
multi-value field and an empty free-text note after trimming), the full render
force-disables investor preferences: the skip flag is set, the detail checkbox
is unchecked, no investor page id is set, every investor section is hidden,
and the investor mode is `skip` — neither `matched` nor `createNew`. -/
theorem displayPreview_no_meaningful_prefs_force_disabled (preview : Preview) (today : Nat)
    (s : AppState) (h : hasPreferences preview.preferences = false) :
    (displayPreview preview today s).skipInvestorPrefs = true ∧
    (displayPreview preview today s).updateInvestorPrefsChecked = false ∧
    (displayPreview preview today s).investorPageId = none ∧
    (displayPreview preview today s).investorFoundVisible = false ∧
    (displayPreview preview today s).multipleInvestorsVisible = false ∧
    (displayPreview preview today s).investorNotFoundVisible = false ∧
    investorMode (displayPreview preview today s) = .skipMode ∧
    investorMode (displayPreview preview today s) ≠ .matched ∧
    investorMode (displayPreview preview today s) ≠ .createNew := by
  have hchain := renderChain_investor preview today
      { s with selectedContactId := none, selectedContactName := none,
               skipHubspot := false, skipInvestorPrefs := false,
               investorPageId := none, selectedDealId := none,
               hubspotAction := "log_only", hubspotRadio := some "log_only",
               updateInvestorPrefsChecked := s.submissionActions.enable_investor_prefs,
               createTodosChecked := s.submissionActions.enable_todos } h
  have hskip : (displayPreview preview today s).skipInvestorPrefs = true := hchain.1
  have hchk : (displayPreview preview today s).updateInvestorPrefsChecked = false := hchain.2.1
  have hpage : (displayPreview preview today s).investorPageId = none := hchain.2.2.1
  have hv1 : (displayPreview preview today s).investorFoundVisible = false := hchain.2.2.2.1
  have hv2 : (displayPreview preview today s).multipleInvestorsVisible = false :=
    hchain.2.2.2.2.1
  have hv3 : (displayPreview preview today s).investorNotFoundVisible = false :=
    hchain.2.2.2.2.2
  have hmode : investorMode (displayPreview preview today s) = .skipMode := by
    simp [investorMode, hskip]
  refine ⟨hskip, hchk, hpage, hv1, hv2, hv3, hmode, ?_, ?_⟩
  · rw [hmode]
    decide
  · rw [hmode]
    decide

/-- Witness for C5: a preview whose only preference field is an empty list and
whose note is empty, rendered over the fresh state. -/
theorem displayPreview_no_meaningful_prefs_force_disabled_witness :
    (displayPreview emptyPrefsPreview 3 baseState).skipInvestorPrefs = true ∧
    (displayPreview emptyPrefsPreview 3 baseState).updateInvestorPrefsChecked = false ∧
    (displayPreview emptyPrefsPreview 3 baseState).investorPageId = none ∧
    (displayPreview emptyPrefsPreview 3 baseState).investorFoundVisible = false ∧
    (displayPreview emptyPrefsPreview 3 baseState).multipleInvestorsVisible = false ∧
    (displayPreview emptyPrefsPreview 3 baseState).investorNotFoundVisible = false ∧
    investorMode (displayPreview emptyPrefsPreview 3 baseState) = .skipMode ∧
    investorMode (displayPreview emptyPrefsPreview 3 baseState) ≠ .matched ∧
    investorMode (displayPreview emptyPrefsPreview 3 baseState) ≠ .createNew :=
  displayPreview_no_meaningful_prefs_force_disabled emptyPrefsPreview 3 baseState (by decide)

/-- A rendered date string is never empty (so the `|| originalTodo.due_date`
fallback of `getSelectedTodos` can never fire for a selector value). -/
theorem dateStr_ne_empty (d : Nat) : dateStr d ≠ "" := by
  intro h
  have hlen := congrArg String.length h
  simp [dateStr, String.length_append] at hlen
  exact absurd hlen.1 (by decide)

/-- Every value offered by a due-date selector is non-empty. -/
theorem mem_dateOptionValues_ne_empty (today : Nat) (v : String)
    (h : v ∈ dateOptionValues today) : v ≠ "" := by
  simp only [dateOptionValues, List.mem_cons, List.not_mem_nil, or_false] at h
  rcases h with h | h | h | h <;> (subst h; exact dateStr_ne_empty _)

/-- C10: as long as every row's selector holds one of the offered option values
(which the fixed `<select>` enforces), the todos sent on confirm are exactly
the checked rows whose index exists in the preview's todos list — unchecked
rows omitted, dangling indices silently dropped — and each sent todo carries
its row's selector value as `due_date` (one of the four fixed offsets from
today; the due date parsed from the notes is never sent).  Rows freshly built
by `displayTodos` are all checked with the selector on "tomorrow". -/
theorem getSelectedTodos_due_dates_from_selectors (today : Nat) (todos : List Todo)
    (rows : List TodoRow) (h : ∀ r ∈ rows, r.dateValue ∈ dateOptionValues today) :
    getSelectedTodos rows todos =
      (rows.filter (fun r => r.checked)).filterMap
        (fun r => (todos[r.index]?).map (fun t => { t with due_date := r.dateValue })) ∧
    (∀ t ∈ getSelectedTodos rows todos, t.due_date ∈ dateOptionValues today) ∧
    (∀ r ∈ displayTodosRows todos today, r.checked = true ∧ r.dateValue = dateStr (today + 1)) := by
  have heq : getSelectedTodos rows todos =
      (rows.filter (fun r => r.checked)).filterMap
        (fun r => (todos[r.index]?).map (fun t => { t with due_date := r.dateValue })) := by
    induction rows with
    | nil => simp [getSelectedTodos]
    | cons r rs ih =>
        have hr : r.dateValue ≠ "" :=
          mem_dateOptionValues_ne_empty today r.dateValue (h r (List.mem_cons_self r rs))
        have ih2 := ih (fun x hx => h x (List.mem_cons_of_mem r hx))
        cases hc : r.checked with
        | false => simpa [getSelectedTodos, List.filter_cons, hc] using ih2
        | true =>
            cases hg : todos[r.index]? with
            | none => simpa [getSelectedTodos, List.filter_cons, List.filterMap_cons, hc, hg]
                using ih2
            | some t =>
                simpa [getSelectedTodos, List.filter_cons, List.filterMap_cons, hc, hg, hr]
                  using ih2
  refine ⟨heq, ?_, ?_⟩
  · intro t ht
    rw [heq] at ht
    rw [List.mem_filterMap] at ht
    obtain ⟨r, hrmem, hrt⟩ := ht
    rw [Option.map_eq_some'] at hrt
    obtain ⟨t0, _, ht0⟩ := hrt
    have hrow : r ∈ rows := List.mem_of_mem_filter hrmem
    have := h r hrow
    rw [← ht0]
    simpa using this
  · intro r hr
    simp only [displayTodosRows, List.mem_map] at hr
    obtain ⟨p, _, hp⟩ := hr
    rw [← hp]
    exact ⟨rfl, rfl⟩

/-- Witness for C10: two parsed todos and three rows — one checked on the
7-day offset, one checked but with a dangling index, one unchecked. -/
theorem getSelectedTodos_due_dates_from_selectors_witness :
    getSelectedTodos c10Rows c10Todos =
      (c10Rows.filter (fun r => r.checked)).filterMap
        (fun r => (c10Todos[r.index]?).map (fun t => { t with due_date := r.dateValue })) ∧
    (∀ t ∈ getSelectedTodos c10Rows c10Todos, t.due_date ∈ dateOptionValues 0) ∧
    (∀ r ∈ displayTodosRows c10Todos 0, r.checked = true ∧ r.dateValue = dateStr (0 + 1)) :=
  getSelectedTodos_due_dates_from_selectors 0 c10Todos c10Rows (by decide)

/-- Every pair of `enumFrom n l` carries an index at least `n`. -/
theorem enumFrom_le_fst {α : Type} {x : Nat × α} :
    ∀ {n : Nat} {l : List α}, x ∈ l.enumFrom n → n ≤ x.1 := by
  intro n l
  induction l generalizing n with
  | nil => intro h; cases h
  | cons a as ih =>
      intro h
      rw [List.enumFrom_cons, List.mem_cons] at h
      cases h with
      | inl h => rw [h]
      | inr h => exact Nat.le_trans (Nat.le_succ n) (ih h)

/-- The indices of `enumFrom` are strictly increasing along the list. -/
theorem enumFrom_pairwise_fst_lt {α : Type} (l : List α) :
    ∀ n : Nat, (l.enumFrom n).Pairwise (fun p q => p.1 < q.1) := by
  induction l with
  | nil => intro n; simp
  | cons a as ih =>
      intro n
      rw [List.enumFrom_cons]
      refine List.Pairwise.cons ?_ (ih (n + 1))
      intro q hq
      have := enumFrom_le_fst hq
      omega

/-- After the `filter`/`findIndex` dedup, no two surviving cache entries share
an email, and no two share an id: a later entry matching an earlier one would
have a first-match index strictly below its own and be dropped. -/
theorem dedupContacts_pairwise (l : List PrepContact) :
    (dedupContacts l).Pairwise (fun a b => a.email ≠ b.email ∧ a.id ≠ b.id) := by
  unfold dedupContacts
  rw [List.pairwise_map]
  have h0 : (l.enum).Pairwise (fun p q : Nat × PrepContact => p.1 < q.1) :=
    enumFrom_pairwise_fst_lt l 0
  have h1 := h0.filter (fun p => l.findIdx (fun t => contactMatches t p.2) == p.1)
  refine List.Pairwise.imp_of_mem ?_ h1
  intro p q hp hq hlt
  rw [List.mem_filter] at hp hq
  obtain ⟨hpmem, _⟩ := hp
  obtain ⟨hqmem, hqP⟩ := hq
  have hq1 : l.findIdx (fun t => contactMatches t q.2) = q.1 := by
    simpa using hqP
  have hp2 : l[p.1]? = some p.2 := List.mem_enum_iff_getElem?.mp hpmem
  rw [List.getElem?_eq_some] at hp2
  obtain ⟨hlen, hget⟩ := hp2
  have hidx : p.1 < l.findIdx (fun t => contactMatches t q.2) := by
    rw [hq1]; exact hlt
  have hfalse := List.not_of_lt_findIdx hidx
  rw [hget] at hfalse
  simpa [contactMatches] using hfalse

/-- The just-upserted contact always survives the dedup at the front: index 0
is its own first match. -/
theorem dedupContacts_cons_eq (c : PrepContact) (l : List PrepContact) :
    dedupContacts (c :: l) =
      c :: ((l.enumFrom 1).filter
        (fun p => (c :: l).findIdx (fun t => contactMatches t p.2) == p.1)).map Prod.snd := by
  unfold dedupContacts
  have hmatch : contactMatches c c = true := by
    simp [contactMatches]
  rw [show (c :: l).enum = (0, c) :: l.enumFrom 1 from rfl]
  rw [List.filter_cons]
  simp only [List.findIdx_cons, hmatch, cond_true]
  simp

/-- C8 (amended): after every upsert the recent-contacts cache is an ordered
list of at most 6 entries, the just-upserted contact is first, and no two
entries share an email nor share an id (the code dedups on an email match OR
an id match — stronger than dedup by a single email-falling-back-to-id key,
except that an email value colliding with another entry's id value is not
collapsed). -/
theorem savePrepRecentContact_bounded_mru_dedup (c : PrepContact) (l : List PrepContact) :
    (savePrepRecentContact c l).length ≤ 6 ∧
    (savePrepRecentContact c l).head? = some c ∧
    (savePrepRecentContact c l).Pairwise (fun a b => a.email ≠ b.email ∧ a.id ≠ b.id) := by
  refine ⟨List.length_take_le 6 _, ?_, ?_⟩
  · unfold savePrepRecentContact
    rw [dedupContacts_cons_eq]
    rfl
  · exact (dedupContacts_pairwise (c :: l)).sublist (List.take_sublist 6 _)

/-- C8 counterexample: upserting `{id x, email k}` and then `{id k, no email}`
into the empty cache keeps both entries — they share neither an email nor an
id — yet both have the deduplication key "k" under the claimed key "email,
falling back to id".  The claim that no two entries ever share that key is
therefore false on the code. -/
theorem savePrepRecentContact_dedup_key_collision :
    savePrepRecentContact prepContactB (savePrepRecentContact prepContactA []) =
      [prepContactB, prepContactA] ∧
    prepDedupKey prepContactB = prepDedupKey prepContactA ∧
    prepContactB ≠ prepContactA := by
  decide

end NHConnector
